import Mathlib

/-!
Verification development for the interactive worksheet viewer of the
marker repository (frontend/app/workspace/[id]/page.tsx).

The embedding below translates the data model and the operations of the
viewer page into Lean. JavaScript numbers are modelled as rationals
(all coordinates and page dimensions in the repository are finite
numbers and the arithmetic involved is exact), React state is an
explicit record `WState`, the asynchronous search and fetch calls are
modelled by the request value they send and by an explicit function
applying the outcome of a completed call to the state, exactly the way
the completion callback in the source mutates the state.
-/

/-- One detected text block of a page: `bounding_box` is a polygon of
pixel points, `text` is the recognized string
(interface TextBlock in page.tsx). -/
structure TextBlock where
  bounding_box : List (ℚ × ℚ)
  text : String
deriving DecidableEq, Repr

/-- One page of the fetched document: a base64 image, native pixel
dimensions and the text blocks (interface PageData in page.tsx). -/
structure PageData where
  image : String
  dimensions : ℚ × ℚ
  text_blocks : List TextBlock
deriving DecidableEq, Repr

/-- The fetched document (interface FileData in page.tsx; the optional
video_bytes field plays no role in the viewer and is omitted). -/
structure FileData where
  success : Bool
  file_id : String
  file_name : String
  data : List PageData
deriving DecidableEq, Repr

/-- Math.min over a spread array, as used in getBlockStyle. The source
always calls it with at least one coordinate (every bounding box has at
least one point); the value returned here on the empty list is never
relied upon by any theorem below. -/
def listMin : List ℚ → ℚ
  | [] => 0
  | x :: xs => xs.foldl min x

/-- Math.max over a spread array, as used in getBlockStyle. -/
def listMax : List ℚ → ℚ
  | [] => 0
  | x :: xs => xs.foldl max x

/-- The axis-aligned bounding rectangle of the polygon after the fixed
outward padding of 10 pixels applied by getBlockStyle:
minX = min of the x coordinates - 10, maxX = max + 10, and likewise for
y (lines 127-133 of page.tsx). -/
structure PixelBox where
  minX : ℚ
  maxX : ℚ
  minY : ℚ
  maxY : ℚ
deriving DecidableEq, Repr

/-- The padded pixel box computed inside getBlockStyle. -/
def paddedBox (boundingBox : List (ℚ × ℚ)) : PixelBox :=
  let xCoords := boundingBox.map (fun point => point.1)
  let yCoords := boundingBox.map (fun point => point.2)
  { minX := listMin xCoords - 10
    maxX := listMax xCoords + 10
    minY := listMin yCoords - 10
    maxY := listMax yCoords + 10 }

/-- The style record returned by getBlockStyle: the four percentage
values, plus the constant fields of the returned object. -/
structure BlockStyle where
  left : ℚ
  top : ℚ
  width : ℚ
  height : ℚ
  position : String
  borderRadius : String
deriving DecidableEq, Repr

/-- getBlockStyle (page.tsx lines 123-149): converts the padded pixel
box of the polygon to percentages of the native page dimensions. -/
def getBlockStyle (boundingBox : List (ℚ × ℚ)) (imageDimensions : ℚ × ℚ) : BlockStyle :=
  let originalWidth := imageDimensions.1
  let originalHeight := imageDimensions.2
  let box := paddedBox boundingBox
  { left := box.minX / originalWidth * 100
    top := box.minY / originalHeight * 100
    width := (box.maxX - box.minX) / originalWidth * 100
    height := (box.maxY - box.minY) / originalHeight * 100
    position := "absolute"
    borderRadius := "10px" }

/-- Claim C8: for the bounding box [(10,10),(50,10),(50,40),(10,40)] on
a 100 by 100 page, the padded pixel box is (0,0)-(60,50) and the mapped
rectangle is left 0 percent, top 0 percent, width 60 percent, height
50 percent. -/
theorem getBlockStyle_spec_example :
    paddedBox [((10 : ℚ), 10), (50, 10), (50, 40), (10, 40)] =
      { minX := 0, maxX := 60, minY := 0, maxY := 50 } ∧
    (getBlockStyle [((10 : ℚ), 10), (50, 10), (50, 40), (10, 40)] (100, 100)).left = 0 ∧
    (getBlockStyle [((10 : ℚ), 10), (50, 10), (50, 40), (10, 40)] (100, 100)).top = 0 ∧
    (getBlockStyle [((10 : ℚ), 10), (50, 10), (50, 40), (10, 40)] (100, 100)).width = 60 ∧
    (getBlockStyle [((10 : ℚ), 10), (50, 10), (50, 40), (10, 40)] (100, 100)).height = 50 := by
  refine ⟨?_, ?_, ?_, ?_, ?_⟩ <;>
    norm_num [getBlockStyle, paddedBox, listMin, listMax, min_def, max_def]

lemma foldl_min_replicate (n : Nat) (x : ℚ) : (List.replicate n x).foldl min x = x := by
  induction n with
  | zero => rfl
  | succ n ih => simp only [List.replicate_succ, List.foldl_cons, min_self, ih]

lemma foldl_max_replicate (n : Nat) (x : ℚ) : (List.replicate n x).foldl max x = x := by
  induction n with
  | zero => rfl
  | succ n ih => simp only [List.replicate_succ, List.foldl_cons, max_self, ih]

lemma listMin_replicate (n : Nat) (x : ℚ) : listMin (List.replicate (n + 1) x) = x := by
  rw [List.replicate_succ]
  exact foldl_min_replicate n x

lemma listMax_replicate (n : Nat) (x : ℚ) : listMax (List.replicate (n + 1) x) = x := by
  rw [List.replicate_succ]
  exact foldl_max_replicate n x

lemma paddedBox_replicate (n : Nat) (p : ℚ × ℚ) :
    paddedBox (List.replicate (n + 1) p) =
      { minX := p.1 - 10, maxX := p.1 + 10, minY := p.2 - 10, maxY := p.2 + 10 } := by
  simp only [paddedBox, List.map_replicate, listMin_replicate, listMax_replicate]

/-- Claim C4 counterexample: the degenerate polygon whose four points all
equal (5,5), on a 100 by 100 page, is mapped to a rectangle of width
20 percent and height 20 percent — not the zero-area rectangle the claim
states: the fixed 10 pixel padding always produces a 20 by 20 pixel box
around a degenerate polygon. -/
theorem getBlockStyle_degenerate_not_zero :
    (getBlockStyle [((5 : ℚ), 5), (5, 5), (5, 5), (5, 5)] (100, 100)).width = 20 ∧
    (getBlockStyle [((5 : ℚ), 5), (5, 5), (5, 5), (5, 5)] (100, 100)).height = 20 ∧
    ¬ ((getBlockStyle [((5 : ℚ), 5), (5, 5), (5, 5), (5, 5)] (100, 100)).width = 0 ∧
       (getBlockStyle [((5 : ℚ), 5), (5, 5), (5, 5), (5, 5)] (100, 100)).height = 0) := by
  norm_num [getBlockStyle, paddedBox, listMin, listMax, min_def, max_def]

/-- Claim C4 (amended): for every degenerate polygon (all points equal,
here a list of n+1 copies of the point p) and page dimensions W, H with
W, H > 0, the Geometry Mapper totally computes a rectangle (no crash or
exception: the function is pure and total) whose width and height
percentages are 2000 / W and 2000 / H — the 20 by 20 pixel padded box —
and are strictly positive, not zero. -/
theorem getBlockStyle_degenerate (p : ℚ × ℚ) (n : Nat) (W H : ℚ)
    (hW : 0 < W) (hH : 0 < H) :
    (getBlockStyle (List.replicate (n + 1) p) (W, H)).width = 2000 / W ∧
    (getBlockStyle (List.replicate (n + 1) p) (W, H)).height = 2000 / H ∧
    0 < (getBlockStyle (List.replicate (n + 1) p) (W, H)).width ∧
    0 < (getBlockStyle (List.replicate (n + 1) p) (W, H)).height := by
  have hW0 : W ≠ 0 := ne_of_gt hW
  have hH0 : H ≠ 0 := ne_of_gt hH
  have h1 : (getBlockStyle (List.replicate (n + 1) p) (W, H)).width = 2000 / W := by
    simp only [getBlockStyle, paddedBox_replicate]
    field_simp
    ring
  have h2 : (getBlockStyle (List.replicate (n + 1) p) (W, H)).height = 2000 / H := by
    simp only [getBlockStyle, paddedBox_replicate]
    field_simp
    ring
  refine ⟨h1, h2, ?_, ?_⟩
  · rw [h1]; positivity
  · rw [h2]; positivity

theorem getBlockStyle_degenerate_witness :
    (getBlockStyle (List.replicate 4 ((5 : ℚ), 5)) (100, 100)).width = 2000 / 100 ∧
    (getBlockStyle (List.replicate 4 ((5 : ℚ), 5)) (100, 100)).height = 2000 / 100 ∧
    0 < (getBlockStyle (List.replicate 4 ((5 : ℚ), 5)) (100, 100)).width ∧
    0 < (getBlockStyle (List.replicate 4 ((5 : ℚ), 5)) (100, 100)).height :=
  getBlockStyle_degenerate (5, 5) 3 100 100 (by norm_num) (by norm_num)

/-- Claim C9: for every nonempty polygon and page dimensions W, H > 0,
the four output percentages of the Geometry Mapper are linear functions
of the padded pixel box coordinates (each is the box coordinate times
the constant 100 / W resp. 100 / H), and halving W with the polygon and
H fixed exactly doubles left and width and leaves top and height
unchanged. -/
theorem getBlockStyle_linear (bb : List (ℚ × ℚ)) (W H : ℚ)
    (hbb : bb ≠ []) (hW : 0 < W) (hH : 0 < H) :
    (getBlockStyle bb (W, H)).left = (paddedBox bb).minX * (100 / W) ∧
    (getBlockStyle bb (W, H)).top = (paddedBox bb).minY * (100 / H) ∧
    (getBlockStyle bb (W, H)).width =
      ((paddedBox bb).maxX - (paddedBox bb).minX) * (100 / W) ∧
    (getBlockStyle bb (W, H)).height =
      ((paddedBox bb).maxY - (paddedBox bb).minY) * (100 / H) ∧
    (getBlockStyle bb (W / 2, H)).left = 2 * (getBlockStyle bb (W, H)).left ∧
    (getBlockStyle bb (W / 2, H)).width = 2 * (getBlockStyle bb (W, H)).width ∧
    (getBlockStyle bb (W / 2, H)).top = (getBlockStyle bb (W, H)).top ∧
    (getBlockStyle bb (W / 2, H)).height = (getBlockStyle bb (W, H)).height := by
  have hW0 : W ≠ 0 := ne_of_gt hW
  refine ⟨?_, ?_, ?_, ?_, ?_, ?_, ?_, ?_⟩
  · simp only [getBlockStyle]; ring
  · simp only [getBlockStyle]; ring
  · simp only [getBlockStyle]; ring
  · simp only [getBlockStyle]; ring
  · simp only [getBlockStyle]; field_simp; ring
  · simp only [getBlockStyle]; field_simp; ring
  · simp only [getBlockStyle]
  · simp only [getBlockStyle]

theorem getBlockStyle_linear_witness :
    (getBlockStyle [((0 : ℚ), 0)] (2, 2)).left = (paddedBox [((0 : ℚ), 0)]).minX * (100 / 2) ∧
    (getBlockStyle [((0 : ℚ), 0)] (2, 2)).top = (paddedBox [((0 : ℚ), 0)]).minY * (100 / 2) ∧
    (getBlockStyle [((0 : ℚ), 0)] (2, 2)).width =
      ((paddedBox [((0 : ℚ), 0)]).maxX - (paddedBox [((0 : ℚ), 0)]).minX) * (100 / 2) ∧
    (getBlockStyle [((0 : ℚ), 0)] (2, 2)).height =
      ((paddedBox [((0 : ℚ), 0)]).maxY - (paddedBox [((0 : ℚ), 0)]).minY) * (100 / 2) ∧
    (getBlockStyle [((0 : ℚ), 0)] (2 / 2, 2)).left =
      2 * (getBlockStyle [((0 : ℚ), 0)] (2, 2)).left ∧
    (getBlockStyle [((0 : ℚ), 0)] (2 / 2, 2)).width =
      2 * (getBlockStyle [((0 : ℚ), 0)] (2, 2)).width ∧
    (getBlockStyle [((0 : ℚ), 0)] (2 / 2, 2)).top =
      (getBlockStyle [((0 : ℚ), 0)] (2, 2)).top ∧
    (getBlockStyle [((0 : ℚ), 0)] (2 / 2, 2)).height =
      (getBlockStyle [((0 : ℚ), 0)] (2, 2)).height :=
  getBlockStyle_linear [((0 : ℚ), 0)] 2 2 (List.cons_ne_nil _ _) (by norm_num) (by norm_num)

/-!
State model of the Workspace component. The React state hooks of the
component (page.tsx lines 44-52) become the fields of `WState`; the
route parameter id (resolvedParams.id) is the immutable `docId`. The
fields selectedProblem and imageRef play no role in any claim and are
omitted. clickedBlock is an Int because its initial value in the source
is -1.
-/

structure WState where
  docId : String
  currentPage : Int
  fileData : Option FileData
  loading : Bool
  error : Option String
  clickedBlock : Int
  searchResults : Option String
deriving DecidableEq, Repr

/-- The state of the component on mount: useState initial values of
page.tsx lines 44-52. -/
def initState (docId : String) : WState :=
  { docId := docId
    currentPage := 0
    fileData := none
    loading := true
    error := none
    clickedBlock := -1
    searchResults := none }

/-- Outcome of the document fetch issued on mount (fetchFileData,
page.tsx lines 55-83): either the parsed FileData, or the error message
stored by the catch branch (the HTTP-status message thrown on a non-ok
response, the message of a network error, or the fallback string). -/
inductive FetchOutcome
  | fetchOk (d : FileData)
  | fetchErr (msg : String)
deriving DecidableEq, Repr

/-- Applying a completed document fetch to the state: on success
setFileData(data), on failure setError(message); the finally branch
sets loading to false in both cases (page.tsx lines 73-79). -/
def applyFetch (s : WState) : FetchOutcome → WState
  | .fetchOk d => { s with fileData := some d, loading := false }
  | .fetchErr m => { s with error := some m, loading := false }

/-- JavaScript truthiness of the error state variable (a string or
null): null and the empty string are falsy. -/
def isTruthy : Option String → Bool
  | none => false
  | some m => m ≠ ""

/-- What the component body renders (page.tsx lines 151-305), reduced
to the four observably distinct cases: the loading spinner (line 151),
the full-screen failure view with the error text and the Back to
Dashboard link (lines 162-175, reached when error is truthy or
fileData is null), the page view for fileData.data[currentPage] with
the page counter total (lines 177-305), or a thrown TypeError: when
fileData.data[currentPage] is undefined (for example an empty data
list) line 177 still binds it and line 242 dereferences
currentPageData.image, which throws. -/
inductive View
  | loadingView
  | errorView (msg : Option String)
  | pageView (p : PageData) (totalPages : Nat)
  | crash
deriving DecidableEq, Repr

/-- JavaScript array indexing data[currentPage]: undefined for a
negative index or one at or past the length. -/
def pageAt (fd : FileData) (c : Int) : Option PageData :=
  if 0 ≤ c then fd.data.get? c.toNat else none

/-- The render decision of the Workspace component body. -/
def render (s : WState) : View :=
  if s.loading then .loadingView
  else
    match s.fileData with
    | none => .errorView s.error
    | some fd =>
      if isTruthy s.error then .errorView s.error
      else
        match pageAt fd s.currentPage with
        | some p => .pageView p fd.data.length
        | none => .crash

/-- Result of evaluating the lookup expression
fileData?.data[currentPage].text_blocks[blockIndex].text
(page.tsx line 92): `missing` when fileData is null (the optional chain
makes the whole expression undefined), `thrown` when
data[currentPage] or text_blocks[blockIndex] is undefined (the
subsequent member access throws a TypeError, which — since line 92 sits
before the try block of an async function — aborts the handler after
setClickedBlock has already run, with no further state change), and
`found t` when the block exists with text t. -/
inductive TextLookup
  | missing
  | thrown
  | found (t : String)
deriving DecidableEq, Repr

def lookupBlockText (s : WState) (blockIndex : Nat) : TextLookup :=
  match s.fileData with
  | none => .missing
  | some fd =>
    match pageAt fd s.currentPage with
    | none => .thrown
    | some page =>
      match page.text_blocks.get? blockIndex with
      | none => .thrown
      | some block => .found block.text

/-- The body sent to the search_embeddings endpoint
(page.tsx lines 102-105). -/
structure SearchRequest where
  query : String
  file_id : String
deriving DecidableEq, Repr

/-- The synchronous part of handleBlockClick (page.tsx lines 89-106):
setClickedBlock(blockIndex) runs first, unconditionally; then the block
text is looked up, and if it is falsy (undefined or the empty string)
or the lookup throws, the handler dispatches no request; otherwise it
issues exactly one search request with body
query = block text, file_id = resolvedParams.id. Returns the updated
state together with the request dispatched, if any. -/
def handleBlockClick (s : WState) (blockIndex : Nat) : WState × Option SearchRequest :=
  let s1 := { s with clickedBlock := (blockIndex : Int) }
  match lookupBlockText s blockIndex with
  | .found t =>
    if t = "" then (s1, none)
    else (s1, some { query := t, file_id := s.docId })
  | .missing => (s1, none)
  | .thrown => (s1, none)

/-- Outcome of a dispatched search request as seen by the continuation
of handleBlockClick (page.tsx lines 108-117): a successful response
with its JSON payload, a non-ok HTTP response (the handler throws and
the catch branch only logs), or a network error (same catch branch). -/
inductive SearchOutcome
  | ok (payload : String)
  | httpError (status : Nat)
  | netError
deriving DecidableEq, Repr

/-- Applying the completion of a search request to the state: on a
successful response setSearchResults(data) — unconditionally, with no
check that the request still belongs to the current selection — and on
any failure no state change at all (the catch branch only calls
console.error). -/
def applySearchOutcome (s : WState) : SearchOutcome → WState
  | .ok payload => { s with searchResults := some payload }
  | .httpError _ => s
  | .netError => s

/-- The two pagination buttons (page.tsx lines 218-232). -/
inductive NavOp
  | prev
  | next
deriving DecidableEq, Repr

/-- Clicking Previous runs setCurrentPage(Math.max(0, currentPage - 1)),
clicking Next runs setCurrentPage(Math.min(totalPages - 1,
currentPage + 1)), where totalPages = fileData.data.length (page.tsx
lines 178, 219, 227). No other state variable is written. -/
def applyNav (totalPages : Int) (s : WState) : NavOp → WState
  | .prev => { s with currentPage := max 0 (s.currentPage - 1) }
  | .next => { s with currentPage := min (totalPages - 1) (s.currentPage + 1) }

/-- A sequence of pagination clicks. -/
def runNav (totalPages : Int) (s : WState) (ops : List NavOp) : WState :=
  ops.foldl (applyNav totalPages) s

/-- An interleaving event of the single-threaded event loop: either a
click on block i (running the synchronous part of handleBlockClick), or
the arrival of the outcome of some previously dispatched search request
(running the continuation of handleBlockClick). -/
inductive Event
  | click (i : Nat)
  | arrive (o : SearchOutcome)
deriving DecidableEq, Repr

def stepEvent (s : WState) : Event → WState
  | .click i => (handleBlockClick s i).1
  | .arrive o => applySearchOutcome s o

def runEvents (s : WState) (es : List Event) : WState :=
  es.foldl stepEvent s

/-- A concrete two-block page used by the concrete theorems below:
block 0 has text alpha, block 1 has text beta, block 2 has empty
text. -/
def samplePage : PageData :=
  { image := "img"
    dimensions := (100, 100)
    text_blocks :=
      [ { bounding_box := [(10, 10), (50, 10), (50, 40), (10, 40)], text := "alpha" }
      , { bounding_box := [(60, 10), (90, 10), (90, 40), (60, 40)], text := "beta" }
      , { bounding_box := [(10, 60), (90, 60), (90, 90), (10, 90)], text := "" } ] }

def sampleFile : FileData :=
  { success := true, file_id := "doc1", file_name := "worksheet.pdf", data := [samplePage] }

/-- The state after the mount fetch resolves successfully with
sampleFile. -/
def sampleState : WState :=
  applyFetch (initState "doc1") (.fetchOk sampleFile)

/-- A two-page document and its loaded state, for the navigation
counterexample. -/
def twoPageFile : FileData :=
  { success := true, file_id := "doc2", file_name := "two.pdf", data := [samplePage, samplePage] }

def twoPageState : WState :=
  applyFetch (initState "doc2") (.fetchOk twoPageFile)

/-- A successful fetch whose page list is empty. -/
def emptyFile : FileData :=
  { success := true, file_id := "doc3", file_name := "empty.pdf", data := [] }

/-- Claim C1 counterexample: on sampleState, clicking block 0 (text
alpha) dispatches the alpha query and clicking block 1 (text beta)
dispatches the beta query; yet for the interleaving click 0, click 1,
arrival of the beta response, arrival of the alpha response — both
clicks before either response, block 1 clicked last — the surfaced
searchResults is the alpha result, i.e. the response of the superseded
selection i = 0, not of j = 1: the completion handler stores any
successful response unconditionally. -/
theorem staleResponse_displayed :
    (handleBlockClick sampleState 0).2 = some { query := "alpha", file_id := "doc1" } ∧
    (handleBlockClick (handleBlockClick sampleState 0).1 1).2 =
      some { query := "beta", file_id := "doc1" } ∧
    (runEvents sampleState
        [.click 0, .click 1, .arrive (.ok "beta-result"),
         .arrive (.ok "alpha-result")]).searchResults = some "alpha-result" ∧
    "alpha-result" ≠ "beta-result" := by
  refine ⟨?_, ?_, ?_, ?_⟩ <;> decide

/-- Claim C1 (amended): the result surfaced to the results panel is the
payload of the most recently arrived successful response, regardless of
which click dispatched its request — last arrival wins, a response
belonging to a superseded selection is applied rather than discarded.
In particular the final visible result is that of the latest click only
when its response happens to arrive last. -/
theorem searchResults_lastArrival (s : WState) (es : List Event) (p : String) :
    (runEvents s (es ++ [Event.arrive (.ok p)])).searchResults = some p := by
  simp [runEvents, List.foldl_append, stepEvent, applySearchOutcome]

/-- Claim C2 counterexample: with the two-page document loaded, click
block 0 on page 0 and press Next: the current page becomes 1 but
clickedBlock stays 0 — the selection is not cleared to the Idle state
(clickedBlock = -1) by page navigation. -/
theorem nav_keeps_selection_counterexample :
    (applyNav 2 (handleBlockClick twoPageState 0).1 .next).currentPage = 1 ∧
    (applyNav 2 (handleBlockClick twoPageState 0).1 .next).clickedBlock = 0 ∧
    (applyNav 2 (handleBlockClick twoPageState 0).1 .next).clickedBlock ≠ -1 := by
  refine ⟨?_, ?_, ?_⟩ <;> decide

/-- Claim C2 (amended): a pagination click writes only currentPage; the
block selection and the stored search result are left completely
unchanged by page navigation — in particular the selection is never
reset to Idle, so the same block index stays marked selected on the new
page. -/
theorem nav_preserves_selection (total : Int) (s : WState) (op : NavOp) :
    (applyNav total s op).clickedBlock = s.clickedBlock ∧
    (applyNav total s op).searchResults = s.searchResults := by
  cases op <;> exact ⟨rfl, rfl⟩

/-- Claim C3 counterexample: a fetch that succeeds with an empty page
list is installed as fileData, so the error branch is not taken: the
component renders the page view for data[0], which is undefined, and
the dereference of its image field throws — the render attempt crashes
instead of showing the full-screen error view. -/
theorem emptyDocument_not_errorView :
    render (applyFetch (initState "doc3") (.fetchOk emptyFile)) = .crash ∧
    render (applyFetch (initState "doc3") (.fetchOk emptyFile)) ≠ .errorView none := by
  refine ⟨?_, ?_⟩ <;> decide

/-- Claim C3 (amended): a document fetch that fails (network error or
non-ok HTTP status) is terminal for the view: the component renders the
full-screen error view (with the Back to Dashboard link) and no page
render is attempted. A fetch that succeeds but returns an empty page
list, however, is not detected: a page render is attempted on it and
crashes on the undefined page. -/
theorem loadFailure_rendering (d m : String) (fd : FileData) (hfd : fd.data = []) :
    render (applyFetch (initState d) (.fetchErr m)) = .errorView (some m) ∧
    render (applyFetch (initState d) (.fetchOk fd)) = .crash := by
  constructor
  · rfl
  · simp [render, applyFetch, initState, isTruthy, pageAt, hfd]

theorem loadFailure_rendering_witness :
    render (applyFetch (initState "doc3") (.fetchErr "HTTP error, status 500")) =
      .errorView (some "HTTP error, status 500") ∧
    render (applyFetch (initState "doc3") (.fetchOk emptyFile)) = .crash :=
  loadFailure_rendering "doc3" "HTTP error, status 500" emptyFile rfl

/-- Claim C5: for every click on block i whose text lookup succeeds
with a nonempty text t, the handler synchronously sets clickedBlock to
i (before any response can arrive: the update is part of the returned
state, independent of the dispatched request) and dispatches exactly
one search request, whose body is query = t (the recognized text of the
clicked block) and file_id = the document id of the route. -/
theorem handleBlockClick_issues_request (s : WState) (i : Nat) (t : String)
    (hfound : lookupBlockText s i = .found t) (hne : t ≠ "") :
    handleBlockClick s i =
      ({ s with clickedBlock := (i : Int) }, some { query := t, file_id := s.docId }) := by
  simp [handleBlockClick, hfound, hne]

theorem handleBlockClick_issues_request_witness :
    handleBlockClick sampleState 0 =
      ({ sampleState with clickedBlock := (0 : Int) },
        some { query := "alpha", file_id := sampleState.docId }) :=
  handleBlockClick_issues_request sampleState 0 "alpha" (by decide) (by decide)

/-- Claim C6: a failed search request — non-ok HTTP response or thrown
network error — changes nothing at all: the stored searchResults (a
previously resolved result included) is untouched, and a subsequent
click behaves exactly as it would have on the unchanged state, so the
failure does not prevent further requests from being issued. -/
theorem searchFailure_preserves_state (s : WState) (o : SearchOutcome)
    (h : ∀ p, o ≠ .ok p) :
    applySearchOutcome s o = s ∧
    (applySearchOutcome s o).searchResults = s.searchResults ∧
    ∀ i, handleBlockClick (applySearchOutcome s o) i = handleBlockClick s i := by
  have h1 : applySearchOutcome s o = s := by
    cases o with
    | ok p => exact absurd rfl (h p)
    | httpError st => rfl
    | netError => rfl
  exact ⟨h1, by rw [h1], fun i => by rw [h1]⟩

theorem searchFailure_preserves_state_witness :
    applySearchOutcome { sampleState with searchResults := some "old" } .netError =
      { sampleState with searchResults := some "old" } ∧
    (applySearchOutcome { sampleState with searchResults := some "old" }
        .netError).searchResults =
      { sampleState with searchResults := some "old" }.searchResults ∧
    ∀ i, handleBlockClick
        (applySearchOutcome { sampleState with searchResults := some "old" } .netError) i =
      handleBlockClick { sampleState with searchResults := some "old" } i :=
  searchFailure_preserves_state { sampleState with searchResults := some "old" }
    .netError (fun p hp => nomatch hp)

lemma runNav_cons (total : Int) (s : WState) (op : NavOp) (ops : List NavOp) :
    runNav total s (op :: ops) = runNav total (applyNav total s op) ops := rfl

lemma applyNav_currentPage_bounds (total : Int) (htot : 1 ≤ total) (s : WState)
    (h0 : 0 ≤ s.currentPage) (h1 : s.currentPage < total) (op : NavOp) :
    0 ≤ (applyNav total s op).currentPage ∧ (applyNav total s op).currentPage < total := by
  cases op with
  | prev =>
    refine ⟨le_max_left _ _, ?_⟩
    exact max_lt_iff.mpr ⟨by omega, by omega⟩
  | next =>
    refine ⟨le_min_iff.mpr ⟨by omega, by omega⟩, ?_⟩
    exact lt_of_le_of_lt (min_le_left _ _) (by omega)

lemma runNav_bounds (total : Int) (htot : 1 ≤ total) (ops : List NavOp) :
    ∀ s : WState, 0 ≤ s.currentPage → s.currentPage < total →
      0 ≤ (runNav total s ops).currentPage ∧ (runNav total s ops).currentPage < total := by
  induction ops with
  | nil => exact fun s h0 h1 => ⟨h0, h1⟩
  | cons op rest ih =>
    intro s h0 h1
    rw [runNav_cons]
    obtain ⟨g0, g1⟩ := applyNav_currentPage_bounds total htot s h0 h1 op
    exact ih _ g0 g1

/-- Claim C7: for a document with total ≥ 1 pages, the Previous click
at page 0 and the Next click at the last page are exact no-ops on the
whole state (in particular they change neither the page index nor the
selection state); every pagination click leaves clickedBlock and
searchResults untouched; and starting from page 0, no sequence of
Previous/Next clicks ever drives the page index to -1 or to total — it
always stays within 0 ≤ index < total. -/
theorem pagination_safe (total : Int) (s : WState) (htot : 1 ≤ total) :
    (s.currentPage = 0 → applyNav total s .prev = s) ∧
    (s.currentPage = total - 1 → applyNav total s .next = s) ∧
    (∀ op, (applyNav total s op).clickedBlock = s.clickedBlock ∧
      (applyNav total s op).searchResults = s.searchResults) ∧
    (s.currentPage = 0 → ∀ ops : List NavOp,
      0 ≤ (runNav total s ops).currentPage ∧
      (runNav total s ops).currentPage ≠ -1 ∧
      (runNav total s ops).currentPage < total ∧
      (runNav total s ops).currentPage ≠ total) := by
  refine ⟨?_, ?_, ?_, ?_⟩
  · intro h
    have hm : max 0 (s.currentPage - 1) = s.currentPage := by
      rw [h]
      norm_num [max_def]
    show { s with currentPage := max 0 (s.currentPage - 1) } = s
    rw [hm]
  · intro h
    have hm : min (total - 1) (s.currentPage + 1) = s.currentPage := by
      rw [h]
      exact min_eq_left (by omega)
    show { s with currentPage := min (total - 1) (s.currentPage + 1) } = s
    rw [hm]
  · intro op
    cases op <;> exact ⟨rfl, rfl⟩
  · intro h ops
    have h0 : 0 ≤ s.currentPage := by rw [h]
    have h1 : s.currentPage < total := by omega
    obtain ⟨g0, g1⟩ := runNav_bounds total htot ops s h0 h1
    exact ⟨g0, by omega, g1, by omega⟩

theorem pagination_safe_witness :
    (1 : Int) ≤ 1 ∧ applyNav 1 sampleState .prev = sampleState :=
  ⟨le_refl 1, (pagination_safe 1 sampleState (le_refl 1)).1 rfl⟩

/-- Claim C10: clicking a block whose text lookup yields the empty
string, or whose text cannot be looked up at all (fileData null, page
missing, or block index out of range - the latter two abort the async
handler with a TypeError after the selection update has run), still
sets clickedBlock to the clicked index, dispatches no search request,
and leaves searchResults (and everything else) unchanged: the selection
highlight and the search dispatch are not atomic at this edge. -/
theorem handleBlockClick_no_text (s : WState) (i : Nat)
    (h : lookupBlockText s i = .found "" ∨ lookupBlockText s i = .missing ∨
      lookupBlockText s i = .thrown) :
    handleBlockClick s i = ({ s with clickedBlock := (i : Int) }, none) ∧
    (handleBlockClick s i).1.searchResults = s.searchResults := by
  have h1 : handleBlockClick s i = ({ s with clickedBlock := (i : Int) }, none) := by
    rcases h with h | h | h <;> simp [handleBlockClick, h]
  exact ⟨h1, by rw [h1]⟩

theorem handleBlockClick_no_text_witness :
    handleBlockClick sampleState 2 = ({ sampleState with clickedBlock := (2 : Int) }, none) ∧
    (handleBlockClick sampleState 2).1.searchResults = sampleState.searchResults :=
  handleBlockClick_no_text sampleState 2 (Or.inl (by decide))
